import Mathlib

/-!
Verification of the duty-cycle trip-simulation core of the planner
repository (`trips/simulator.py`, `trips/views.py`).

Python floats are embedded as rationals (`ℚ`); Python's `round(x, n)`
(round-half-to-even) is `pyRound`; `datetime.now()` is an explicit
reference-time parameter measured in hours; network calls (geocoding,
routing) are an oracle environment `GeoEnv`, and `TripSimulator.simulate`
additionally returns the trace of the network calls it issued.
-/

namespace Planner

/-- Round-half-to-even of a rational to an integer, as Python's builtin
`round` does on exact values. -/
def roundHalfEven (x : ℚ) : ℤ :=
  let f : ℤ := ⌊x⌋
  let frac : ℚ := x - f
  if frac < 1/2 then f
  else if 1/2 < frac then f + 1
  else if f % 2 = 0 then f else f + 1

/-- Python's `round(x, nd)` on an exact (rational) value: round
`x * 10^nd` half-to-even and scale back. -/
def pyRound (nd : ℕ) (x : ℚ) : ℚ :=
  (roundHalfEven (x * (10:ℚ)^nd) : ℚ) / (10:ℚ)^nd

/-- Python's float `%` for a positive modulus: `a - b * floor (a / b)`. -/
def pyMod (a b : ℚ) : ℚ := a - b * ⌊a / b⌋

/-- The `TripSimulator` object: the fields set by `TripSimulator.__init__`
in `trips/simulator.py`. -/
structure TripSimulator where
  geoapify_token : String
  remaining_cycle : ℚ
  driving_limit : ℚ
  on_duty_limit : ℚ
  rest_hours : ℚ
  break_hours : ℚ
  avg_speed : ℚ
  fuel_time : ℚ
  pickup_time : ℚ
  dropoff_time : ℚ

/-- `TripSimulator.__init__(geoapify_token, current_cycle_used)`:
`remaining_cycle = 70 - current_cycle_used`, all other fields fixed
constants (`trips/simulator.py` lines 10-23). -/
def TripSimulator.init (geoapify_token : String) (current_cycle_used : ℤ) :
    TripSimulator where
  geoapify_token := geoapify_token
  remaining_cycle := 70 - current_cycle_used
  driving_limit := 11
  on_duty_limit := 14
  rest_hours := 10
  break_hours := 1/2
  avg_speed := 55
  fuel_time := 1/2
  pickup_time := 1
  dropoff_time := 1

/-- `TripSimulator.calculate_fuel_stops(total_distance)`
(`trips/simulator.py` lines 114-118): `0` when `total_distance <= 1000`,
else `ceil(total_distance / 1000) - 1`. -/
def TripSimulator.calculate_fuel_stops (total_distance : ℚ) : ℤ :=
  if total_distance ≤ 1000 then 0
  else ⌈total_distance / 1000⌉ - 1

/-- An entry of an ELD daily log, as built by
`TripSimulator.create_eld_log_entry`. Timestamps are hours (rational). -/
structure LogEntry where
  status : String
  hours : ℚ
  description : String
  start_time : ℚ
  elapsed_hours : ℚ
  deriving DecidableEq

/-- `TripSimulator.create_eld_log_entry(status, hours, description,
start_time, day_start)` (`trips/simulator.py` lines 120-129):
`elapsed_hours = round((start_time - day_start) % 24, 2)` in hours. -/
def create_eld_log_entry (status : String) (hours : ℚ) (description : String)
    (start_time day_start : ℚ) : LogEntry where
  status := status
  hours := hours
  description := description
  start_time := start_time
  elapsed_hours := pyRound 2 (pyMod (start_time - day_start) 24)

/-- A timeline event dict as appended to `events` in
`simulate_trip_timeline`: `{"type", "hours", "note", "start"}`. -/
structure Event where
  type : String
  hours : ℚ
  note : String
  start : ℚ
  deriving DecidableEq

/-- A daily log dict: `{"date", "entries", "total_driving",
"total_on_duty"}`; the date is the day index `⌊now / 24⌋` of the
reference time. -/
structure DailyLog where
  date : ℤ
  entries : List LogEntry
  total_driving : ℚ
  total_on_duty : ℚ
  deriving DecidableEq

/-- `TripSimulator.simulate_trip_timeline(total_driving_hours,
total_distance, num_fuel_stops)` (`trips/simulator.py` lines 131-203),
with `datetime.now()` made the explicit parameter `now0` (hours);
`current_day_start` is midnight of `now0`'s day, `24 * ⌊now0 / 24⌋`.
`total_distance` and `num_fuel_stops` are accepted and unused, exactly as
in the source. Returns `(events, daily_logs)`. -/
def TripSimulator.simulate_trip_timeline (sim : TripSimulator)
    (total_driving_hours total_distance : ℚ) (num_fuel_stops : ℤ)
    (now0 : ℚ) : List Event × List DailyLog :=
  let current_day_start : ℚ := 24 * ⌊now0 / 24⌋
  -- Driving to pickup
  let drive_segment := min total_driving_hours 2
  let e1 : Event := ⟨"drive", drive_segment, "Driving to pickup location", now0⟩
  let l1 := create_eld_log_entry "D" drive_segment "Driving to pickup"
    now0 current_day_start
  let driving_remaining := total_driving_hours - drive_segment
  let now1 := now0 + drive_segment
  -- Pickup
  let e2 : Event := ⟨"pickup", sim.pickup_time, "Loading at pickup location", now1⟩
  let l2 := create_eld_log_entry "ON" sim.pickup_time "Loading"
    now1 current_day_start
  let now2 := now1 + sim.pickup_time
  -- Main driving (emitted only when driving_remaining > 0)
  let mainEvents : List Event :=
    if 0 < driving_remaining then
      [⟨"drive", driving_remaining, "Main route to destination", now2⟩]
    else []
  let mainEntries : List LogEntry :=
    if 0 < driving_remaining then
      [create_eld_log_entry "D" driving_remaining "Route driving"
        now2 current_day_start]
    else []
  let now3 := if 0 < driving_remaining then now2 + driving_remaining else now2
  -- Dropoff
  let e4 : Event := ⟨"dropoff", sim.dropoff_time, "Unloading at destination", now3⟩
  let l4 := create_eld_log_entry "ON" sim.dropoff_time "Unloading"
    now3 current_day_start
  -- Finalize log
  let current_log : DailyLog :=
    ⟨⌊now0 / 24⌋, [l1, l2] ++ mainEntries ++ [l4], total_driving_hours,
      total_driving_hours + sim.pickup_time + sim.dropoff_time⟩
  ([e1, e2] ++ mainEvents ++ [e4], [current_log])

/-- A fuel-stop location dict as built inside `TripSimulator.simulate`
(`trips/simulator.py` lines 234-246). -/
structure FuelStop where
  lat : ℚ
  lng : ℚ
  name : String
  distance_from_start : ℚ
  deriving DecidableEq

/-- The fuel-location loop of `TripSimulator.simulate`: for
`i in range(num_fuel_stops)`, `fraction = (i+1)/(num_fuel_stops+1)`,
coordinates linearly interpolated between pickup and dropoff and rounded
to 6 decimals, name `"Fuel Stop {i+1}"`, distance `round((i+1)*1000, 1)`.
Empty when `num_fuel_stops ≤ 0`. -/
def fuelLocations (num_fuel_stops : ℤ) (pickup_coords dropoff_coords : ℚ × ℚ) :
    List FuelStop :=
  if 0 < num_fuel_stops then
    (List.range num_fuel_stops.toNat).map (fun (i : ℕ) =>
      let fraction : ℚ := ((i : ℚ) + 1) / ((num_fuel_stops : ℚ) + 1)
      { lat := pyRound 6 (pickup_coords.1 +
          fraction * (dropoff_coords.1 - pickup_coords.1))
        lng := pyRound 6 (pickup_coords.2 +
          fraction * (dropoff_coords.2 - pickup_coords.2))
        name := "Fuel Stop " ++ toString (i + 1)
        distance_from_start := pyRound 1 (((i : ℚ) + 1) * 1000) })
  else []

/-- A routing result as returned by `TripSimulator.get_route`: geometry is
opaque, distance in miles and duration in hours. -/
structure Route where
  geojson : String
  distance : ℚ
  duration : ℚ

/-- The external collaborators: geocoding (address to `(lat, lon)`) and
routing (two coordinates to a `Route`); a failure is the error's message
string, mirroring the `ValueError`s raised by `geocode` / `get_route`. -/
structure GeoEnv where
  geocode : String → Except String (ℚ × ℚ)
  route : ℚ × ℚ → ℚ × ℚ → Except String Route

/-- One outbound network call made by `TripSimulator.simulate`. -/
inductive NetCall where
  | geocode (addr : String)
  | route (a b : ℚ × ℚ)

/-- The dict returned by `TripSimulator.simulate` on success
(`trips/simulator.py` lines 253-264). -/
structure SimulationResult where
  events : List Event
  daily_logs : List DailyLog
  total_distance : ℚ
  total_driving_hours : ℚ
  route_geojson : String
  fuel_stops : ℤ
  fuel_locations : List FuelStop
  remaining_cycle_hours : ℚ
  status : String
  message : String

/-- The message of the `ValueError` raised by `simulate` when
`remaining_cycle < 10`. -/
def insufficientCycleMsg : String :=
  "Insufficient cycle hours remaining (minimum 10 required)"

/-- `TripSimulator.simulate(current_addr, pickup_addr, dropoff_addr)`
(`trips/simulator.py` lines 205-268), over the collaborator environment
`env` and with `datetime.now()` the explicit parameter `now`. Returns the
result (or the raised `ValueError`'s message) together with the ordered
trace of network calls issued. Failures of collaborator calls are
re-raised as `"Simulation failed: "` plus the inner message, as the
`except` block does. -/
def TripSimulator.simulate (sim : TripSimulator) (env : GeoEnv) (now : ℚ)
    (current_addr pickup_addr dropoff_addr : String) :
    Except String SimulationResult × List NetCall :=
  if sim.remaining_cycle < 10 then
    (Except.error insufficientCycleMsg, [])
  else
    match env.geocode current_addr with
    | Except.error e =>
        (Except.error ("Simulation failed: " ++ e), [NetCall.geocode current_addr])
    | Except.ok current_coords =>
    match env.geocode pickup_addr with
    | Except.error e =>
        (Except.error ("Simulation failed: " ++ e),
          [NetCall.geocode current_addr, NetCall.geocode pickup_addr])
    | Except.ok pickup_coords =>
    match env.geocode dropoff_addr with
    | Except.error e =>
        (Except.error ("Simulation failed: " ++ e),
          [NetCall.geocode current_addr, NetCall.geocode pickup_addr,
           NetCall.geocode dropoff_addr])
    | Except.ok dropoff_coords =>
    match env.route current_coords pickup_coords with
    | Except.error e =>
        (Except.error ("Simulation failed: " ++ e),
          [NetCall.geocode current_addr, NetCall.geocode pickup_addr,
           NetCall.geocode dropoff_addr,
           NetCall.route current_coords pickup_coords])
    | Except.ok route_to_pickup =>
    match env.route pickup_coords dropoff_coords with
    | Except.error e =>
        (Except.error ("Simulation failed: " ++ e),
          [NetCall.geocode current_addr, NetCall.geocode pickup_addr,
           NetCall.geocode dropoff_addr,
           NetCall.route current_coords pickup_coords,
           NetCall.route pickup_coords dropoff_coords])
    | Except.ok main_route =>
      let total_distance := route_to_pickup.distance + main_route.distance
      let total_driving_hours := route_to_pickup.duration + main_route.duration
      let num_fuel_stops := TripSimulator.calculate_fuel_stops total_distance
      let fuel_locs := fuelLocations num_fuel_stops pickup_coords dropoff_coords
      let timeline := sim.simulate_trip_timeline total_driving_hours
        total_distance num_fuel_stops now
      (Except.ok
        { events := timeline.1
          daily_logs := timeline.2
          total_distance := pyRound 1 total_distance
          total_driving_hours := pyRound 1 total_driving_hours
          route_geojson := main_route.geojson
          fuel_stops := num_fuel_stops
          fuel_locations := fuel_locs
          remaining_cycle_hours := pyRound 1 (sim.remaining_cycle -
            total_driving_hours - sim.pickup_time - sim.dropoff_time -
            (num_fuel_stops : ℚ) * sim.fuel_time)
          status := "success"
          message := "Trip simulation completed successfully" },
        [NetCall.geocode current_addr, NetCall.geocode pickup_addr,
         NetCall.geocode dropoff_addr,
         NetCall.route current_coords pickup_coords,
         NetCall.route pickup_coords dropoff_coords])

/-- A value of the decoded JSON request body, as Django REST framework
hands it to `simulate_trip` in `trips/views.py`: `null`, booleans,
integers, floats, strings, or lists. -/
inductive PyVal where
  | none
  | bool (b : Bool)
  | int (n : ℤ)
  | float (x : ℚ)
  | str (s : String)
  | list (xs : List PyVal)

/-- Whether a `PyVal` is a Python `int`. -/
def PyVal.isInt : PyVal → Bool
  | PyVal.int _ => true
  | _ => false

/-- Truncation toward zero, as Python's `int()` applied to a float. -/
def pyTrunc (x : ℚ) : ℤ := if 0 ≤ x then ⌊x⌋ else ⌈x⌉

/-- The value of a list of decimal digit characters. -/
def digitsVal (cs : List Char) : ℕ :=
  cs.foldl (fun a c => a * 10 + (c.toNat - 48)) 0

/-- Surrounding whitespace stripped from a character list, as Python's
`int()` strips it from a string before parsing. -/
def stripChars (cs : List Char) : List Char :=
  ((cs.dropWhile Char.isWhitespace).reverse.dropWhile Char.isWhitespace).reverse

/-- Python's `int()` applied to a string: surrounding whitespace stripped,
an optional sign followed by a nonempty run of decimal digits; `Option.none`
when the string is not such a literal (then `int()` raises `ValueError`).
Digit-group underscores and non-ASCII digits and spaces are not modelled. -/
def pyIntOfString (s : String) : Option ℤ :=
  match stripChars s.toList with
  | [] => Option.none
  | c :: rest =>
    if c = '-' then
      if rest ≠ [] ∧ rest.all Char.isDigit then
        Option.some (-(digitsVal rest : ℤ))
      else Option.none
    else if c = '+' then
      if rest ≠ [] ∧ rest.all Char.isDigit then
        Option.some (digitsVal rest : ℤ)
      else Option.none
    else if (c :: rest).all Char.isDigit then
      Option.some (digitsVal (c :: rest) : ℤ)
    else Option.none

/-- Python's `int(v)` on a decoded JSON value: ints pass through, booleans
become 0/1, floats truncate toward zero, strings parse as integer
literals; `None` and lists raise `TypeError` (`Option.none` here). -/
def pyInt : PyVal → Option ℤ
  | PyVal.none => Option.none
  | PyVal.bool b => Option.some (if b then 1 else 0)
  | PyVal.int n => Option.some n
  | PyVal.float x => Option.some (pyTrunc x)
  | PyVal.str s => pyIntOfString s
  | PyVal.list _ => Option.none

/-- The `current_cycle_used` parsing of `simulate_trip` in
`trips/views.py` (lines 28-32): `int(data.get('current_cycle_used', 0))`,
and on `ValueError` / `TypeError` the value `0`. The argument is the
request body's value for the key, `Option.none` when the key is absent. -/
def parse_current_cycle_used (v : Option PyVal) : ℤ :=
  match v with
  | Option.none => 0
  | Option.some pv =>
    match pyInt pv with
    | Option.some n => n
    | Option.none => 0

/-! Helper lemmas. -/

/-- The driving remainder after the first segment is positive exactly when
the total driving time exceeds 2 hours. -/
lemma driving_remaining_pos_iff (h : ℚ) : 0 < h - min h 2 ↔ 2 < h := by
  rcases le_total h 2 with hle | hge
  · rw [min_eq_left hle]
    constructor
    · intro hp; linarith
    · intro h2; linarith
  · rw [min_eq_right hge]
    constructor
    · intro hp; linarith
    · intro h2; linarith

/-- Round-half-to-even fixes integers. -/
lemma roundHalfEven_intCast (m : ℤ) : roundHalfEven (m : ℚ) = m := by
  unfold roundHalfEven
  norm_num

/-- Rounding fixes a rational that already has at most `nd` decimals. -/
lemma pyRound_eq_self (nd : ℕ) (x : ℚ) (m : ℤ) (hm : x * (10:ℚ)^nd = m) :
    pyRound nd x = x := by
  unfold pyRound
  rw [hm, roundHalfEven_intCast, ← hm]
  field_simp

/-- The stored fuel-stop distance `round((i+1)*1000, 1)` is exactly
`(i+1) * 1000`. -/
lemma fuel_distance_exact (i : ℕ) :
    pyRound 1 (((i : ℚ) + 1) * 1000) = ((i : ℚ) + 1) * 1000 := by
  apply pyRound_eq_self 1 _ ((i + 1) * 10000)
  push_cast
  ring

/-! Claims. -/

/-- C2: for every totalDistanceMiles `d`, the fuel-stop count is 0 when
`d ≤ 1000` (so exactly 1000 miles yields 0 stops), is `⌈d/1000⌉ - 1` when
`d > 1000`, and is never negative. -/
theorem calculate_fuel_stops_spec (d : ℚ) :
    (d ≤ 1000 → TripSimulator.calculate_fuel_stops d = 0) ∧
    (1000 < d → TripSimulator.calculate_fuel_stops d = ⌈d / 1000⌉ - 1) ∧
    0 ≤ TripSimulator.calculate_fuel_stops d := by
  refine ⟨fun hle => by simp [TripSimulator.calculate_fuel_stops, hle],
    fun hgt => by simp [TripSimulator.calculate_fuel_stops, not_le.2 hgt], ?_⟩
  unfold TripSimulator.calculate_fuel_stops
  split_ifs with hle
  · exact le_refl 0
  · push_neg at hle
    have h1 : (1 : ℚ) < d / 1000 := by
      rw [lt_div_iff₀ (by norm_num : (0:ℚ) < 1000)]
      linarith
    have h2 : (1 : ℤ) < ⌈d / 1000⌉ := by
      rw [Int.lt_ceil]
      exact_mod_cast h1
    omega

/-- C8: the Timeline Builder is a pure function of its arguments and the
reference time: two invocations with the same `(totalDrivingHours,
totalDistanceMiles, fuelStopCount)` and reference time produce identical
`(events, dailyLogs)`, even on simulator objects constructed with
different tokens and cycle usage. -/
theorem timeline_pure (tok1 tok2 : String) (c1 c2 : ℤ) (h d : ℚ) (n : ℤ)
    (t : ℚ) :
    (TripSimulator.init tok1 c1).simulate_trip_timeline h d n t =
      (TripSimulator.init tok2 c2).simulate_trip_timeline h d n t := rfl

/-- C1: for every totalDrivingHours `h ≥ 0`, the Timeline Builder emits
exactly: a Drive of `min h 2` hours (log label "Driving to pickup"), a
1.0-hour Pickup, a single Drive of the remainder `h - min h 2` (log
label "Route driving") present if and only if driving hours remain after
the first segment, and a 1.0-hour Dropoff; and it produces exactly one
DailyLog regardless of trip length. -/
theorem timeline_event_sequence (tok : String) (c : ℤ) (h d : ℚ) (n : ℤ)
    (t : ℚ) (h0 : 0 ≤ h) :
    ((TripSimulator.init tok c).simulate_trip_timeline h d n t).1 =
      [⟨"drive", min h 2, "Driving to pickup location", t⟩,
       ⟨"pickup", 1, "Loading at pickup location", t + min h 2⟩] ++
      (if 2 < h then
        [⟨"drive", h - min h 2, "Main route to destination", t + min h 2 + 1⟩]
       else []) ++
      [⟨"dropoff", 1, "Unloading at destination",
        if 2 < h then t + min h 2 + 1 + (h - min h 2) else t + min h 2 + 1⟩] ∧
    (((TripSimulator.init tok c).simulate_trip_timeline h d n t).2.map
        (fun l => l.entries.map (fun en => (en.status, en.hours, en.description)))) =
      [[("D", min h 2, "Driving to pickup"), ("ON", (1:ℚ), "Loading")] ++
       (if 2 < h then [("D", h - min h 2, "Route driving")] else []) ++
       [("ON", (1:ℚ), "Unloading")]] ∧
    ((∃ l ∈ ((TripSimulator.init tok c).simulate_trip_timeline h d n t).2,
        ∃ en ∈ l.entries, en.description = "Route driving") ↔
      0 < h - min h 2) ∧
    ((TripSimulator.init tok c).simulate_trip_timeline h d n t).2.length = 1 := by
  rcases lt_or_le 2 h with hgt | hle
  · have hrem : 0 < h - min h 2 := (driving_remaining_pos_iff h).2 hgt
    refine ⟨?_, ?_, ?_, ?_⟩ <;>
      simp [TripSimulator.simulate_trip_timeline, TripSimulator.init,
        create_eld_log_entry, hrem, hgt]
  · have hrem : ¬ 0 < h - min h 2 := by
      rw [driving_remaining_pos_iff]
      exact not_lt.2 hle
    refine ⟨?_, ?_, ?_, ?_⟩ <;>
      simp [TripSimulator.simulate_trip_timeline, TripSimulator.init,
        create_eld_log_entry, hrem, not_lt.2 hle]

/-- Witness for C1, at the spec's scenario totalDrivingHours 15,
totalDistanceMiles 2500, 2 fuel stops, reference time hour 8:
events are Drive(2.0), Pickup(1.0), Drive(13.0), Dropoff(1.0) and one
DailyLog. -/
theorem timeline_event_sequence_witness :
    ((TripSimulator.init "key" 0).simulate_trip_timeline 15 2500 2 8).1 =
      [⟨"drive", 2, "Driving to pickup location", 8⟩,
       ⟨"pickup", 1, "Loading at pickup location", 10⟩,
       ⟨"drive", 13, "Main route to destination", 11⟩,
       ⟨"dropoff", 1, "Unloading at destination", 24⟩] ∧
    ((TripSimulator.init "key" 0).simulate_trip_timeline 15 2500 2 8).2.length
      = 1 := by
  have hthm := timeline_event_sequence "key" 0 15 2500 2 8 (by norm_num)
  refine ⟨?_, hthm.2.2.2⟩
  rw [hthm.1]
  norm_num [min_def]

/-- C7 counterexample: with totalDrivingHours 0 the Timeline Builder does
emit a zero-duration event, the initial "Driving to pickup" Drive of
`min 0 2 = 0` hours, so the claim "no zero-duration event ever appears in
the output, including when totalDrivingHours = 0" is false on the code. -/
theorem zero_duration_event_cex :
    ∃ e ∈ ((TripSimulator.init "key" 0).simulate_trip_timeline 0 500 0 0).1,
      e.hours = 0 := by
  refine ⟨⟨"drive", 0, "Driving to pickup location", 0⟩, ?_, rfl⟩
  simp [TripSimulator.simulate_trip_timeline, TripSimulator.init]

/-- C7 as amended: every event emitted by the Timeline Builder has
strictly positive duration whenever totalDrivingHours is strictly
positive, and the main-drive ("Main route to destination" / "Route
driving") segment is omitted, not emitted at zero length, exactly when no
driving hours remain after the first segment (the whole trip ≤ 2 driving
hours); but when totalDrivingHours = 0 the initial "Driving to pickup"
Drive event is emitted with zero duration. -/
theorem positive_durations (tok : String) (c : ℤ) (h d : ℚ) (n : ℤ) (t : ℚ)
    (hpos : 0 < h) :
    (∀ e ∈ ((TripSimulator.init tok c).simulate_trip_timeline h d n t).1,
      0 < e.hours) ∧
    ((∃ e ∈ ((TripSimulator.init tok c).simulate_trip_timeline h d n t).1,
        e.note = "Main route to destination") ↔ 2 < h) := by
  constructor
  · intro e he
    rcases lt_or_le 2 h with hgt | hle
    · have hrem : 0 < h - min h 2 := (driving_remaining_pos_iff h).2 hgt
      simp [TripSimulator.simulate_trip_timeline, TripSimulator.init,
        hrem] at he
      rcases he with he | he | he | he <;> subst he
      · show 0 < min h 2
        exact lt_min hpos (by norm_num)
      · show 0 < (1 : ℚ)
        norm_num
      · show 0 < h - min h 2
        exact hrem
      · show 0 < (1 : ℚ)
        norm_num
    · have hrem : ¬ 0 < h - min h 2 := by
        rw [driving_remaining_pos_iff]
        exact not_lt.2 hle
      simp [TripSimulator.simulate_trip_timeline, TripSimulator.init,
        hrem] at he
      rcases he with he | he | he <;> subst he
      · show 0 < min h 2
        exact lt_min hpos (by norm_num)
      · show 0 < (1 : ℚ)
        norm_num
      · show 0 < (1 : ℚ)
        norm_num
  · rcases lt_or_le 2 h with hgt | hle
    · have hrem : 0 < h - min h 2 := (driving_remaining_pos_iff h).2 hgt
      simp [TripSimulator.simulate_trip_timeline, TripSimulator.init, hrem]
      exact hgt
    · have hrem : ¬ 0 < h - min h 2 := by
        rw [driving_remaining_pos_iff]
        exact not_lt.2 hle
      simp [TripSimulator.simulate_trip_timeline, TripSimulator.init, hrem]
      exact hle

/-- Witness for the amended C7 at totalDrivingHours 3 (a positive input,
exceeding 2 hours): the main-drive segment is present. -/
theorem positive_durations_witness :
    (∃ e ∈ ((TripSimulator.init "key" 0).simulate_trip_timeline 3 100 0 5).1,
      e.note = "Main route to destination") ↔ 2 < (3:ℚ) :=
  (positive_durations "key" 0 3 100 0 5 (by norm_num)).2

/-- C3: for a fuel-stop count `num ≥ 1`, the i-th stop (1-based `i+1`)
has name `"Fuel Stop (i+1)"`, distance `(i+1) × 1000` rounded to 1
decimal, and coordinates equal to the linear interpolation of pickup and
dropoff at fraction `(i+1)/(num+1)` on each axis, rounded to 6 decimals;
every interpolation fraction is strictly between 0 and 1 (so each stop
lies strictly between distinct pickup and dropoff coordinates), and the
stops are ordered by strictly increasing distance. -/
theorem fuel_stop_positions (num : ℤ) (pc dc : ℚ × ℚ) (hn : 1 ≤ num) :
    (fuelLocations num pc dc).length = num.toNat ∧
    (∀ i : ℕ, i < num.toNat →
      (fuelLocations num pc dc)[i]? = Option.some
        { lat := pyRound 6 (pc.1 + (((i:ℚ) + 1) / ((num:ℚ) + 1)) * (dc.1 - pc.1))
          lng := pyRound 6 (pc.2 + (((i:ℚ) + 1) / ((num:ℚ) + 1)) * (dc.2 - pc.2))
          name := "Fuel Stop " ++ toString (i + 1)
          distance_from_start := pyRound 1 (((i:ℚ) + 1) * 1000) } ∧
      0 < ((i:ℚ) + 1) / ((num:ℚ) + 1) ∧ ((i:ℚ) + 1) / ((num:ℚ) + 1) < 1) ∧
    List.Pairwise (fun a b => a.distance_from_start < b.distance_from_start)
      (fuelLocations num pc dc) := by
  have hn0 : 0 < num := by omega
  have hnq : (1:ℚ) ≤ (num:ℚ) := by exact_mod_cast hn
  have hden : (0:ℚ) < (num:ℚ) + 1 := by linarith
  refine ⟨?_, ?_, ?_⟩
  · simp [fuelLocations, if_pos hn0]
  · intro i hi
    refine ⟨?_, ?_, ?_⟩
    · rw [fuelLocations, if_pos hn0, List.getElem?_map,
        List.getElem?_range hi]
      rfl
    · positivity
    · rw [div_lt_one hden]
      have : (i:ℚ) < ((num.toNat : ℕ) : ℚ) := by exact_mod_cast hi
      have hcast : ((num.toNat : ℕ) : ℚ) = (num:ℚ) := by
        exact_mod_cast Int.toNat_of_nonneg (le_of_lt hn0)
      linarith [hcast ▸ this]
  · rw [fuelLocations, if_pos hn0, List.pairwise_map]
    apply (List.pairwise_lt_range num.toNat).imp
    intro a b hab
    show pyRound 1 (((a:ℚ) + 1) * 1000) < pyRound 1 (((b:ℚ) + 1) * 1000)
    rw [fuel_distance_exact, fuel_distance_exact]
    have : (a:ℚ) < (b:ℚ) := by exact_mod_cast hab
    nlinarith

/-- Witness for C3 with 2 stops between pickup (10, 20) and dropoff
(40, 50): the planner emits 2 fuel stops. -/
theorem fuel_stop_positions_witness :
    (fuelLocations 2 (10, 20) (40, 50)).length = (2:ℤ).toNat :=
  (fuel_stop_positions 2 (10, 20) (40, 50) (by norm_num)).1

/-- C6: the single produced DailyLog carries `total_driving` equal to the
original input and `total_on_duty` equal to the input plus 2.0 (pickup
1.0 plus dropoff 1.0, fuel excluded), and the Drive events' durations sum
to the input exactly. -/
theorem daily_log_totals (tok : String) (c : ℤ) (h d : ℚ) (n : ℤ) (t : ℚ) :
    (∃ log, ((TripSimulator.init tok c).simulate_trip_timeline h d n t).2 =
        [log] ∧ log.total_driving = h ∧ log.total_on_duty = h + 2) ∧
    ((((TripSimulator.init tok c).simulate_trip_timeline h d n t).1.filter
        (fun e => e.type = "drive")).map Event.hours).sum = h := by
  constructor
  · refine ⟨_, rfl, rfl, ?_⟩
    show h + (TripSimulator.init tok c).pickup_time +
      (TripSimulator.init tok c).dropoff_time = h + 2
    simp [TripSimulator.init]
    ring
  · simp only [TripSimulator.simulate_trip_timeline, TripSimulator.init]
    split_ifs with hrem
    · simp [List.filter]
    · push_neg at hrem
      have hle : h ≤ 2 := by
        by_contra hgt
        push_neg at hgt
        exact absurd ((driving_remaining_pos_iff h).2 hgt) (not_lt.2 hrem)
      simp [List.filter]
      exact hle

/-- C4: whenever the simulator's remaining cycle hours are below 10,
`simulate` fails with the validation error and the trace of network
calls is empty: the refusal precedes any geocoding or routing call,
whatever the environment and addresses. -/
theorem simulate_refuses_low_cycle (sim : TripSimulator) (env : GeoEnv)
    (now : ℚ) (a b c : String) (hlow : sim.remaining_cycle < 10) :
    sim.simulate env now a b c = (Except.error insufficientCycleMsg, []) := by
  unfold TripSimulator.simulate
  rw [if_pos hlow]

/-- Witness for C4: a simulator built with 61 cycle hours used (9
remaining) refuses immediately with no network call, even over an
environment whose calls would all fail. -/
theorem simulate_refuses_low_cycle_witness :
    (TripSimulator.init "key" 61).simulate
        ⟨fun _ => Except.error "down", fun _ _ => Except.error "down"⟩
        0 "a" "b" "c" =
      (Except.error insufficientCycleMsg, []) :=
  simulate_refuses_low_cycle _ _ _ _ _ _ (by norm_num [TripSimulator.init])

/-- C5: on every successful simulation, the reported remaining cycle
hours equal the pre-trip remaining hours (70 minus cycle used) minus the
total driving hours, minus 1.0 pickup, minus 1.0 dropoff, minus half an
hour per fuel stop, rounded to 1 decimal; the value is the rounded raw
difference, never clamped (the witness exhibits a negative result). -/
theorem simulate_remaining_cycle_formula (tok : String) (cyc : ℤ)
    (env : GeoEnv) (now : ℚ) (a b c : String) (pca pcb pcc : ℚ × ℚ)
    (r1 r2 : Route) (hc : cyc ≤ 60)
    (h1 : env.geocode a = Except.ok pca)
    (h2 : env.geocode b = Except.ok pcb)
    (h3 : env.geocode c = Except.ok pcc)
    (h4 : env.route pca pcb = Except.ok r1)
    (h5 : env.route pcb pcc = Except.ok r2) :
    ∃ res, ((TripSimulator.init tok cyc).simulate env now a b c).1 =
        Except.ok res ∧
      res.remaining_cycle_hours = pyRound 1 ((70 - (cyc:ℚ)) -
        (r1.duration + r2.duration) - 1 - 1 -
        (TripSimulator.calculate_fuel_stops (r1.distance + r2.distance) : ℚ)
          * (1/2)) := by
  have hok : ¬ (TripSimulator.init tok cyc).remaining_cycle < 10 := by
    simp only [TripSimulator.init, not_lt]
    have : (cyc : ℚ) ≤ 60 := by exact_mod_cast hc
    linarith
  unfold TripSimulator.simulate
  rw [if_neg hok]
  simp only [h1, h2, h3, h4, h5]
  refine ⟨_, rfl, ?_⟩
  show pyRound 1 ((TripSimulator.init tok cyc).remaining_cycle -
    (r1.duration + r2.duration) - (TripSimulator.init tok cyc).pickup_time -
    (TripSimulator.init tok cyc).dropoff_time -
    (TripSimulator.calculate_fuel_stops (r1.distance + r2.distance) : ℚ) *
      (TripSimulator.init tok cyc).fuel_time) = _
  simp only [TripSimulator.init]

/-- Witness for C5: over an environment whose legs are 2500 miles and 40
hours each (4 fuel stops over 5000 miles, 80 driving hours), a driver
with 0 hours used ends at `70 - 80 - 1 - 1 - 4*0.5 = -14` remaining
cycle hours, a negative, unclamped value. -/
theorem simulate_remaining_cycle_formula_witness :
    ∃ res, ((TripSimulator.init "key" 0).simulate
        ⟨fun _ => Except.ok (0, 0), fun _ _ => Except.ok ⟨"geom", 2500, 40⟩⟩
        0 "a" "b" "c").1 = Except.ok res ∧
      res.remaining_cycle_hours = pyRound 1 ((70 - ((0:ℤ):ℚ)) - (40 + 40) -
        1 - 1 - (TripSimulator.calculate_fuel_stops (2500 + 2500) : ℚ)
          * (1/2)) ∧
      res.remaining_cycle_hours < 0 := by
  obtain ⟨res, hres, hval⟩ := simulate_remaining_cycle_formula "key" 0
    ⟨fun _ => Except.ok (0, 0), fun _ _ => Except.ok ⟨"geom", 2500, 40⟩⟩
    0 "a" "b" "c" (0, 0) (0, 0) (0, 0) ⟨"geom", 2500, 40⟩ ⟨"geom", 2500, 40⟩
    (by norm_num) rfl rfl rfl rfl rfl
  refine ⟨res, hres, hval, ?_⟩
  rw [hval]
  have hceil : TripSimulator.calculate_fuel_stops ((2500:ℚ) + 2500) = 4 := by
    unfold TripSimulator.calculate_fuel_stops
    rw [if_neg (by norm_num)]
    rw [show (2500:ℚ) + 2500 = 5000 by norm_num,
      show (5000:ℚ) / 1000 = ((5:ℤ):ℚ) by norm_num, Int.ceil_intCast]
    norm_num
  have harg : (70 - ((0:ℤ):ℚ)) - ((40:ℚ) + 40) - 1 - 1 -
      (TripSimulator.calculate_fuel_stops ((2500:ℚ) + 2500) : ℚ) * (1/2)
      = -14 := by
    rw [hceil]
    norm_num
  rw [harg, pyRound_eq_self 1 (-14) (-140) (by norm_num)]
  norm_num

/-- C10 (implicit): the driver's duty cycle is hard-coded as a 70-hour
total: `__init__` sets `remaining_cycle = 70 - current_cycle_used`, and
`simulate` refuses with the insufficient-cycle error (before any network
call) exactly when `current_cycle_used > 60`. -/
theorem seventy_hour_cycle (tok : String) (c : ℤ) (env : GeoEnv) (now : ℚ)
    (a b d : String) :
    (TripSimulator.init tok c).remaining_cycle = 70 - (c:ℚ) ∧
    ((TripSimulator.init tok c).simulate env now a b d =
        (Except.error insufficientCycleMsg, []) ↔ 60 < c) := by
  refine ⟨rfl, ?_⟩
  constructor
  · intro heq
    by_contra hle
    push_neg at hle
    have hok : ¬ (TripSimulator.init tok c).remaining_cycle < 10 := by
      simp only [TripSimulator.init, not_lt]
      have : (c : ℚ) ≤ 60 := by exact_mod_cast hle
      linarith
    unfold TripSimulator.simulate at heq
    rw [if_neg hok] at heq
    rcases hg1 : env.geocode a with e1 | p1 <;> simp only [hg1] at heq
    · simp at heq
    rcases hg2 : env.geocode b with e2 | p2 <;> simp only [hg2] at heq
    · simp at heq
    rcases hg3 : env.geocode d with e3 | p3 <;> simp only [hg3] at heq
    · simp at heq
    rcases hr1 : env.route p1 p2 with f1 | q1 <;> simp only [hr1] at heq
    · simp at heq
    rcases hr2 : env.route p2 p3 with f2 | q2 <;> simp only [hr2] at heq
    · simp at heq
    · simp at heq
  · intro hgt
    have hlow : (TripSimulator.init tok c).remaining_cycle < 10 := by
      simp only [TripSimulator.init]
      have h60 : (60 : ℚ) < (c:ℚ) := by exact_mod_cast hgt
      linarith
    unfold TripSimulator.simulate
    rw [if_pos hlow]

/-- C9 counterexample: the string "15" is not an integer value, yet the
request handler converts it to 15 (Python `int("15")` succeeds), not 0:
the simulation proceeds as if the integer 15 had been sent, refuting
"any non-integer value supplied for it is silently treated as 0". -/
theorem cycle_used_string_cex :
    parse_current_cycle_used (Option.some (PyVal.str "15")) = 15 ∧
    (PyVal.str "15").isInt = false ∧ (15 : ℤ) ≠ 0 := by
  refine ⟨?_, rfl, by norm_num⟩
  rfl

/-- C9 as amended: `current_cycle_used` is optional and defaults to 0
when absent; a supplied value is converted with Python's `int()`
(integers pass through, booleans become 0 or 1, floats truncate toward
zero, integer-literal strings parse), and only values on which `int()`
raises — null, lists, non-numeric strings — are silently treated as 0. -/
theorem cycle_used_parsing :
    parse_current_cycle_used Option.none = 0 ∧
    (∀ v : PyVal, pyInt v = Option.none →
      parse_current_cycle_used (Option.some v) = 0) ∧
    (∀ (v : PyVal) (n : ℤ), pyInt v = Option.some n →
      parse_current_cycle_used (Option.some v) = n) ∧
    (∀ n : ℤ, parse_current_cycle_used (Option.some (PyVal.int n)) = n) ∧
    (∀ x : ℚ, parse_current_cycle_used (Option.some (PyVal.float x)) =
      pyTrunc x) ∧
    parse_current_cycle_used (Option.some PyVal.none) = 0 := by
  refine ⟨rfl, ?_, ?_, fun n => rfl, fun x => rfl, rfl⟩
  · intro v hv
    simp [parse_current_cycle_used, hv]
  · intro v n hv
    simp [parse_current_cycle_used, hv]

end Planner

